import Mathlib

/-!
Shallow embedding of `enumerate.py` (eltako14bus): the ESP2 frame codec,
the Eltako device-message layer, the two specialized message types used
during enumeration, the exchange disambiguation logic, and the two phases
of the bus enumerator.  Bytes are modelled as natural numbers, byte strings
as lists of naturals; Python exceptions are modelled with `Except`, and
Python indexing (which can raise `IndexError`) with a fallible `idx`.
-/

/-- Errors a parse can raise: `ParseError` (with its message) or an
out-of-range indexing error (Python `IndexError`). -/
inductive Err where
  | parseError (msg : String)
  | indexError
deriving DecidableEq

/-- Python `l[n]` on a byte string: the element, or `IndexError` when out of
range. -/
def idx (l : List Nat) (n : Nat) : Except Err Nat :=
  match l[n]? with
  | some v => .ok v
  | none => .error .indexError

/-- `ESP2Message`: the envelope, an 11-byte body. -/
structure ESP2Message where
  body : List Nat
deriving DecidableEq

/-- `ESP2Message.serialize`: preamble `A5 5A`, body, checksum byte. -/
def ESP2Message.serialize (m : ESP2Message) : List Nat :=
  [0xa5, 0x5a] ++ m.body ++ [m.body.sum % 256]

/-- `ESP2Message.parse`, in source order: preamble check (`data[:2]`),
length check, checksum check against `data[13]`. -/
def ESP2Message.parse (data : List Nat) : Except Err ESP2Message :=
  if data.take 2 ≠ [0xa5, 0x5a] then .error (.parseError "No preamble found")
  else if data.length ≠ 14 then .error (.parseError "Invalid message length")
  else
    match idx data 13 with
    | .error e => .error e
    | .ok d13 =>
      if ((data.drop 2).take 11).sum % 256 ≠ d13 then
        .error (.parseError "Checksum mismatch")
      else .ok ⟨(data.drop 2).take 11⟩

/-- `EltakoMessage`: the typed view of an envelope body. -/
structure EltakoMessage where
  org : Nat
  address : Nat
  payload : List Nat
  is_request : Bool
deriving DecidableEq

/-- The `body` property: direction/length tag, org, 8 payload bytes,
address. -/
def EltakoMessage.body (m : EltakoMessage) : List Nat :=
  ((if m.is_request then 5 * 32 else 4 * 32) + 11) :: m.org :: (m.payload ++ [m.address])

/-- `EltakoMessage.serialize` = envelope serialization of its body. -/
def EltakoMessage.serialize (m : EltakoMessage) : List Nat :=
  ESP2Message.serialize ⟨m.body⟩

/-- `EltakoMessage.parse`: envelope parse, then direction-code lookup
(`KeyError` becomes a `ParseError`), then fixed-offset field reads. -/
def EltakoMessage.parse (data : List Nat) : Except Err EltakoMessage :=
  match ESP2Message.parse data with
  | .error e => .error e
  | .ok esp2message =>
    match idx esp2message.body 0 with
    | .error e => .error e
    | .ok b0 =>
      if b0 = 5 * 32 + 11 ∨ b0 = 4 * 32 + 11 then
        match idx esp2message.body 1 with
        | .error e => .error e
        | .ok org =>
          match idx esp2message.body 10 with
          | .error e => .error e
          | .ok address =>
            .ok ⟨org, address, (esp2message.body.drop 2).take 8, b0 = 5 * 32 + 11⟩
      else .error (.parseError "Code is neither TCT nor RMT")

/-- `EltakoDiscoveryReply`: reported address, reported size, model. -/
structure EltakoDiscoveryReply where
  reported_address : Nat
  reported_size : Nat
  model : List Nat
deriving DecidableEq

/-- The `payload` property of a discovery reply. -/
def EltakoDiscoveryReply.payload (m : EltakoDiscoveryReply) : List Nat :=
  [m.reported_address, m.reported_size, 0x7f, 0x08] ++ m.model

/-- `EltakoDiscoveryReply.parse`: device-message parse, fixed constants
org `F0` / response / address 0, marker `7F 08`, then payload fields. -/
def EltakoDiscoveryReply.parse (data : List Nat) : Except Err EltakoDiscoveryReply :=
  match EltakoMessage.parse data with
  | .error e => .error e
  | .ok eltakomessage =>
    if eltakomessage.org ≠ 0xf0 ∨ eltakomessage.is_request ≠ false ∨
        eltakomessage.address ≠ 0 then
      .error (.parseError "This is not an EltakoDiscoveryReply")
    else if (eltakomessage.payload.drop 2).take 2 ≠ [0x7f, 0x08] then
      .error (.parseError "Assumed fixed part 7F 08 not present")
    else
      match idx eltakomessage.payload 0 with
      | .error e => .error e
      | .ok reported_address =>
        match idx eltakomessage.payload 1 with
        | .error e => .error e
        | .ok reported_size =>
          .ok ⟨reported_address, reported_size, (eltakomessage.payload.drop 4).take 4⟩

/-- `EltakoTimeout`: a pure sentinel, no data. -/
inductive EltakoTimeout where
  | mk
deriving DecidableEq

/-- `EltakoTimeout.parse`: device-message parse, then all four fixed
constants (org `F8`, response, zero payload, address 0). -/
def EltakoTimeout.parse (data : List Nat) : Except Err EltakoTimeout :=
  match EltakoMessage.parse data with
  | .error e => .error e
  | .ok esp2message =>
    if esp2message.org ≠ 0xf8 ∨ esp2message.is_request ≠ false ∨
        esp2message.payload ≠ [0, 0, 0, 0, 0, 0, 0, 0] ∨ esp2message.address ≠ 0 then
      .error (.parseError "Does not look like an EltakoTimeout")
    else .ok .mk

/-- What `exchange` can raise: the bus-level `TimeoutError`, or a
propagated parse/index error. -/
inductive ExchangeError where
  | timeoutError
  | err (e : Err)
deriving DecidableEq

/-- `exchange`, response interpretation only (the transport round trip is
the external collaborator): parse the response payload as the expected
type; on `ParseError` try `EltakoTimeout.parse`, converting success into
`TimeoutError` and re-raising the original `ParseError` otherwise.  An
`IndexError` is not caught by either `except ParseError` handler. -/
def exchange {α : Type} (responsetype : List Nat → Except Err α)
    (payload : List Nat) : Except ExchangeError α :=
  match responsetype payload with
  | .ok v => .ok v
  | .error .indexError => .error (.err .indexError)
  | .error (.parseError msg) =>
    match EltakoTimeout.parse payload with
    | .ok _ => .error .timeoutError
    | .error (.parseError _) => .error (.err (.parseError msg))
    | .error .indexError => .error (.err .indexError)

/-! ## The bus enumerator (`enumerate`) -/

/-- One usage-map entry: `none` = Unknown (never probed), `some false` =
Free, `some true` = Occupied — exactly the source's `None`/`False`/`True`. -/
abbrev UsageMap := List (Option Bool)

/-- The initial map `[None]`: only index 0 exists, reserved/unknown. -/
def initialUsageMap : UsageMap := [none]

/-- Fatal outcomes of the scan loop: a failed `assert`, a propagated
exchange error, or exhausted fuel (the loop still running). -/
inductive ScanError where
  | assertionError
  | exchangeFailed (e : Err)
  | outOfFuel
deriving DecidableEq

/-- One iteration of the Phase-A scan loop body: probe address
`len(usage_map)`; on `TimeoutError` append `False`; on a reply, assert
`len(usage_map) == response.reported_address` and append
`reported_size` copies of `True`.  The bus is abstracted as the outcome
of the exchange for each probed address. -/
def scanStep (bus : Nat → Except ExchangeError EltakoDiscoveryReply)
    (usage_map : UsageMap) : Except ScanError UsageMap :=
  match bus usage_map.length with
  | .error .timeoutError => .ok (usage_map ++ [some false])
  | .error (.err e) => .error (.exchangeFailed e)
  | .ok response =>
    if usage_map.length = response.reported_address then
      .ok (usage_map ++ List.replicate response.reported_size (some true))
    else .error .assertionError

/-- The Phase-A loop `while len(usage_map) < 255`, with explicit fuel. -/
def scanLoop (bus : Nat → Except ExchangeError EltakoDiscoveryReply) :
    Nat → UsageMap → Except ScanError UsageMap
  | 0, usage_map =>
    if usage_map.length < 255 then .error .outOfFuel else .ok usage_map
  | fuel + 1, usage_map =>
    if usage_map.length < 255 then
      match scanStep bus usage_map with
      | .error e => .error e
      | .ok next => scanLoop bus fuel next
    else .ok usage_map

/-- The Phase-B first-fit search:
`for i in range(1, 254 - size): if not any(usage_map[i:i+size]): break`,
`None` and `False` both being falsy.  Returns `none` when the `for` loop
falls through to its `else` (capacity exhaustion). -/
def firstFit (usage_map : UsageMap) (size : Nat) : Option Nat :=
  (List.range' 1 (254 - size - 1)).find?
    (fun i => !(((usage_map.drop i).take size).any (fun x => x = some true)))

/-- The Python splice `usage_map[i:i+size] = [True]*size`. -/
def setRange (usage_map : UsageMap) (i size : Nat) : UsageMap :=
  usage_map.take i ++ List.replicate size (some true) ++ usage_map.drop (i + size)

/-- The state carried across Phase-B iterations: the usage map and the
one-shot `reported` flag. -/
structure BState where
  usage_map : UsageMap
  reported : Bool
deriving DecidableEq

/-- Phase-B control point: about to probe address 0 for a learn-mode
device, or about to await the confirmation of an assignment to `i`. -/
inductive BPhase where
  | probing (s : BState)
  | confirming (s : BState) (i : Nat)
deriving DecidableEq

/-- The request each Phase-B control point issues next: the learn-mode
probe `EltakoMessage(org=0xf0, address=0)`, or the assignment command
`EltakoMessage(org=0xf8, address=i)`. -/
def BPhase.request : BPhase → EltakoMessage
  | .probing _ => ⟨0xf0, 0, [0, 0, 0, 0, 0, 0, 0, 0], true⟩
  | .confirming _ i => ⟨0xf8, i, [0, 0, 0, 0, 0, 0, 0, 0], true⟩

/-- Fatal outcomes of a Phase-B step. -/
inductive BFatal where
  | capacityExhausted
  | assertionError
  | uncaught (e : ExchangeError)
deriving DecidableEq

/-- One Phase-B transition, given the exchange outcome for the pending
request.  The returned `Option Nat` is the success report: `some i` iff
the step prints "The device was assigned bus address i".
At `probing`: `TimeoutError` only sets the one-shot flag; a reply runs
the first-fit search (raising on exhaustion), optimistically marks the
range Occupied and moves to `confirming`.  At `confirming`: the second
exchange is outside the `try`, so any of its errors is uncaught; a reply
with `reported_address == 0` restarts the loop without reporting
success; otherwise the reply must report `reported_address == i`. -/
def phaseBStep (ph : BPhase) (outcome : Except ExchangeError EltakoDiscoveryReply) :
    Except BFatal (BPhase × Option Nat) :=
  match ph, outcome with
  | .probing s, .error .timeoutError => .ok (.probing ⟨s.usage_map, true⟩, none)
  | .probing _, .error (.err e) => .error (.uncaught (.err e))
  | .probing s, .ok response =>
    match firstFit s.usage_map response.reported_size with
    | none => .error .capacityExhausted
    | some i =>
      .ok (.confirming ⟨setRange s.usage_map i response.reported_size, s.reported⟩ i, none)
  | .confirming _ _, .error e => .error (.uncaught e)
  | .confirming s i, .ok response =>
    if response.reported_address = 0 then .ok (.probing s, none)
    else if response.reported_address = i then .ok (.probing s, some i)
    else .error .assertionError

/-! ## Single-bit mutation of a wire frame (for checksum sensitivity) -/

/-- Flip bit `k` of byte `b`. -/
def flipBitByte (b k : Nat) : Nat :=
  if b / 2 ^ k % 2 = 1 then b - 2 ^ k else b + 2 ^ k

/-- Flip bit `k` of byte `j` of a wire frame. -/
def flipBitWire (w : List Nat) (j k : Nat) : List Nat :=
  w.set j (flipBitByte (w.getD j 0) k)

/-! ## Monotone evolution of the usage map -/

/-- Allowed per-entry evolution: Unknown may become anything, Free may
not revert to Unknown, Occupied stays Occupied. -/
def entryStep : Option Bool → Option Bool → Prop
  | none, _ => True
  | some false, b => b ≠ none
  | some true, b => b = some true

/-- The map never shrinks and every surviving entry evolves by
`entryStep`. -/
def mapEvolves (m m2 : UsageMap) : Prop :=
  m.length ≤ m2.length ∧ ∀ p, p < m.length → ∀ a, m[p]? = some a → ∃ b, m2[p]? = some b ∧ entryStep a b

/-- The usage map a Phase-B control point carries. -/
def BPhase.usage_map : BPhase → UsageMap
  | .probing s => s.usage_map
  | .confirming s _ => s.usage_map

/-- No address of `[i, i+size)` is marked Occupied — `None` and `False`
(and addresses beyond the end of the map) all qualify as available. -/
def availableRange (m : UsageMap) (i size : Nat) : Prop :=
  ∀ j, i ≤ j → j < i + size → m[j]? ≠ some (some true)

/-- A concrete bus used to exercise the Phase-A scan: a size-2 device at
address 1, a contract-violating reply at address 3, timeouts elsewhere. -/
def scanBus : Nat → Except ExchangeError EltakoDiscoveryReply := fun n =>
  if n = 1 then .ok ⟨1, 2, [0, 0, 0, 0]⟩
  else if n = 3 then .ok ⟨9, 1, [0, 0, 0, 0]⟩
  else .error .timeoutError

/-! ## Helper lemmas: the parse layer -/

theorem idx_eq_ok {l : List Nat} {n : Nat} (h : n < l.length) :
    idx l n = .ok (l.getD n 0) := by
  unfold idx
  rw [List.getElem?_eq_getElem h]
  simp [List.getD_eq_getElem?_getD, List.getElem?_eq_getElem h]

theorem esp2_parse_eq (data : List Nat) :
    ESP2Message.parse data =
      if data.take 2 ≠ [0xa5, 0x5a] then .error (.parseError "No preamble found")
      else if data.length ≠ 14 then .error (.parseError "Invalid message length")
      else if ((data.drop 2).take 11).sum % 256 ≠ data.getD 13 0 then
        .error (.parseError "Checksum mismatch")
      else .ok ⟨(data.drop 2).take 11⟩ := by
  unfold ESP2Message.parse
  by_cases h1 : data.take 2 = [0xa5, 0x5a]
  · by_cases h2 : data.length = 14
    · rw [idx_eq_ok (show 13 < data.length by omega)]
    · simp [h1, h2]
  · simp [h1]

theorem esp2_parse_ok_shape {data : List Nat} {m : ESP2Message}
    (h : ESP2Message.parse data = .ok m) :
    data.length = 14 ∧ m.body = (data.drop 2).take 11 ∧ m.body.length = 11 := by
  rw [esp2_parse_eq] at h
  split_ifs at h with h1 h2 h3
  cases h
  refine ⟨by omega, rfl, ?_⟩
  simp only [List.length_take, List.length_drop]
  omega

theorem esp2_parse_no_index (data : List Nat) :
    ESP2Message.parse data ≠ .error .indexError := by
  rw [esp2_parse_eq]
  split_ifs <;> simp

theorem eltako_parse_of_esp2_error {data : List Nat} {e : Err}
    (h : ESP2Message.parse data = .error e) :
    EltakoMessage.parse data = .error e := by
  unfold EltakoMessage.parse
  rw [h]

theorem eltako_parse_of_esp2_ok {data : List Nat} {m : ESP2Message}
    (h : ESP2Message.parse data = .ok m) (hlen : m.body.length = 11) :
    EltakoMessage.parse data =
      if m.body.getD 0 0 = 5 * 32 + 11 ∨ m.body.getD 0 0 = 4 * 32 + 11 then
        .ok ⟨m.body.getD 1 0, m.body.getD 10 0, (m.body.drop 2).take 8,
          decide (m.body.getD 0 0 = 5 * 32 + 11)⟩
      else .error (.parseError "Code is neither TCT nor RMT") := by
  unfold EltakoMessage.parse
  rw [h]
  dsimp only
  rw [idx_eq_ok (show 0 < m.body.length by omega),
    idx_eq_ok (show 1 < m.body.length by omega),
    idx_eq_ok (show 10 < m.body.length by omega)]

theorem eltako_parse_ok_shape {data : List Nat} {em : EltakoMessage}
    (h : EltakoMessage.parse data = .ok em) :
    em.payload.length = 8 := by
  unfold EltakoMessage.parse at h
  rcases hesp : ESP2Message.parse data with e | m
  · rw [hesp] at h
    cases h
  · have hlen := (esp2_parse_ok_shape hesp).2.2
    rw [hesp] at h
    dsimp only at h
    rw [idx_eq_ok (show 0 < m.body.length by omega),
      idx_eq_ok (show 1 < m.body.length by omega),
      idx_eq_ok (show 10 < m.body.length by omega)] at h
    dsimp only at h
    split_ifs at h
    cases h
    simp only [List.length_take, List.length_drop]
    omega

theorem eltako_parse_no_index (data : List Nat) :
    EltakoMessage.parse data ≠ .error .indexError := by
  rcases hesp : ESP2Message.parse data with e | m
  · rw [eltako_parse_of_esp2_error hesp]
    intro hc
    cases hc
    exact esp2_parse_no_index data hesp
  · rw [eltako_parse_of_esp2_ok hesp (esp2_parse_ok_shape hesp).2.2]
    split_ifs <;> simp

theorem edr_parse_of_eltako_error {data : List Nat} {e : Err}
    (h : EltakoMessage.parse data = .error e) :
    EltakoDiscoveryReply.parse data = .error e := by
  unfold EltakoDiscoveryReply.parse
  rw [h]

theorem edr_parse_of_eltako_ok {data : List Nat} {em : EltakoMessage}
    (h : EltakoMessage.parse data = .ok em) :
    EltakoDiscoveryReply.parse data =
      if em.org ≠ 0xf0 ∨ em.is_request ≠ false ∨ em.address ≠ 0 then
        .error (.parseError "This is not an EltakoDiscoveryReply")
      else if (em.payload.drop 2).take 2 ≠ [0x7f, 0x08] then
        .error (.parseError "Assumed fixed part 7F 08 not present")
      else .ok ⟨em.payload.getD 0 0, em.payload.getD 1 0, (em.payload.drop 4).take 4⟩ := by
  have hp := eltako_parse_ok_shape h
  unfold EltakoDiscoveryReply.parse
  rw [h]
  dsimp only
  rw [idx_eq_ok (show 0 < em.payload.length by omega),
    idx_eq_ok (show 1 < em.payload.length by omega)]

theorem et_parse_of_eltako_error {data : List Nat} {e : Err}
    (h : EltakoMessage.parse data = .error e) :
    EltakoTimeout.parse data = .error e := by
  unfold EltakoTimeout.parse
  rw [h]

theorem et_parse_of_eltako_ok {data : List Nat} {em : EltakoMessage}
    (h : EltakoMessage.parse data = .ok em) :
    EltakoTimeout.parse data =
      if em.org ≠ 0xf8 ∨ em.is_request ≠ false ∨
          em.payload ≠ [0, 0, 0, 0, 0, 0, 0, 0] ∨ em.address ≠ 0 then
        .error (.parseError "Does not look like an EltakoTimeout")
      else .ok .mk := by
  unfold EltakoTimeout.parse
  rw [h]

theorem edr_parse_no_index (data : List Nat) :
    EltakoDiscoveryReply.parse data ≠ .error .indexError := by
  rcases helt : EltakoMessage.parse data with e | em
  · rw [edr_parse_of_eltako_error helt]
    intro hc
    cases hc
    exact eltako_parse_no_index data helt
  · rw [edr_parse_of_eltako_ok helt]
    split_ifs <;> simp

theorem et_parse_no_index (data : List Nat) :
    EltakoTimeout.parse data ≠ .error .indexError := by
  rcases helt : EltakoMessage.parse data with e | em
  · rw [et_parse_of_eltako_error helt]
    intro hc
    cases hc
    exact eltako_parse_no_index data helt
  · rw [et_parse_of_eltako_ok helt]
    split_ifs <;> simp

/-! ## Helper lemmas: first-fit search and the splice -/

theorem slice_any_iff (m : UsageMap) (i size : Nat) :
    ((m.drop i).take size).any (fun x => x = some true) = true ↔
      ∃ j, i ≤ j ∧ j < i + size ∧ m[j]? = some (some true) := by
  rw [List.any_eq_true]
  constructor
  · rintro ⟨x, hx, hpx⟩
    rw [List.mem_iff_getElem?] at hx
    obtain ⟨j0, hj0⟩ := hx
    rw [List.getElem?_take] at hj0
    split_ifs at hj0 with hlt
    rw [List.getElem?_drop] at hj0
    refine ⟨i + j0, by omega, by omega, ?_⟩
    rw [hj0]
    congr
    exact of_decide_eq_true hpx
  · rintro ⟨j, hij, hjs, hm⟩
    refine ⟨some true, ?_, by simp⟩
    rw [List.mem_iff_getElem?]
    refine ⟨j - i, ?_⟩
    rw [List.getElem?_take, if_pos (by omega), List.getElem?_drop,
      show i + (j - i) = j by omega]
    exact hm

theorem firstFit_pred_iff (m : UsageMap) (size x : Nat) :
    (!((m.drop x).take size).any (fun y => y = some true)) = true ↔
      availableRange m x size := by
  rw [Bool.not_eq_true', ← Bool.not_eq_true, slice_any_iff]
  unfold availableRange
  push_neg
  constructor
  · intro h j h1 h2
    exact h j h1 h2
  · intro h j h1 h2
    exact h j h1 h2

theorem firstFit_some_iff (m : UsageMap) (size i : Nat) :
    firstFit m size = some i ↔
      1 ≤ i ∧ i < 254 - size ∧ availableRange m i size ∧
      ∀ j, 1 ≤ j → j < i → ¬ availableRange m j size := by
  unfold firstFit
  rw [List.find?_eq_some_iff_getElem]
  constructor
  · rintro ⟨hp, idx, hidx, heq, hmin⟩
    rw [List.length_range'] at hidx
    rw [List.getElem_range'] at heq
    subst heq
    refine ⟨by omega, by omega, (firstFit_pred_iff m size _).mp hp, ?_⟩
    intro j h1 hj
    have hj2 : j - 1 < idx := by omega
    have := hmin (j - 1) hj2
    rw [List.getElem_range' (j - 1) (by rw [List.length_range']; omega)] at this
    rw [show 1 + 1 * (j - 1) = j by omega] at this
    intro hav
    rw [← firstFit_pred_iff m size j] at hav
    rw [hav] at this
    simp at this
  · rintro ⟨h1, h2, hav, hmin⟩
    refine ⟨(firstFit_pred_iff m size i).mpr hav, i - 1, ?_, ?_, ?_⟩
    · rw [List.length_range']
      omega
    · rw [List.getElem_range']
      omega
    · intro j hj
      have hjlen : j < (List.range' 1 (254 - size - 1)).length := by
        rw [List.length_range']
        omega
      rw [List.getElem_range' j hjlen]
      have hna : ¬ availableRange m (1 + 1 * j) size :=
        hmin (1 + 1 * j) (by omega) (by omega)
      rw [← firstFit_pred_iff m size (1 + 1 * j), Bool.not_eq_true] at hna
      show (!(!(List.take size (List.drop (1 + 1 * j) m)).any fun y => decide (y = some true))) = true
      rw [hna]
      rfl

theorem firstFit_none_iff (m : UsageMap) (size : Nat) :
    firstFit m size = none ↔
      ∀ i, 1 ≤ i → i < 254 - size → ¬ availableRange m i size := by
  unfold firstFit
  rw [List.find?_eq_none]
  constructor
  · intro h i h1 h2
    have hm : i ∈ List.range' 1 (254 - size - 1) := by
      rw [List.mem_range'_1]
      omega
    have := h i hm
    rw [← firstFit_pred_iff m size i]
    intro hc
    exact this hc
  · intro h x hx
    rw [List.mem_range'_1] at hx
    have := h x (by omega) (by omega)
    rw [← firstFit_pred_iff m size x] at this
    intro hc
    exact this hc


theorem length_setRange (m : UsageMap) (i s : Nat) :
    (setRange m i s).length = min i m.length + s + (m.length - (i + s)) := by
  unfold setRange
  simp [List.length_append]
  omega

theorem le_length_setRange (m : UsageMap) (i s : Nat) :
    m.length ≤ (setRange m i s).length := by
  rw [length_setRange]
  omega

theorem setRange_getElem?_lt (m : UsageMap) (i s j : Nat) (hj : j < i)
    (hjl : j < m.length) :
    (setRange m i s)[j]? = m[j]? := by
  unfold setRange
  rw [List.getElem?_append_left (by simp [List.length_append]; omega),
    List.getElem?_append_left (by simp; omega), List.getElem?_take, if_pos hj]

theorem setRange_getElem?_true (m : UsageMap) (i s j : Nat) (hij : i ≤ j)
    (hjs : j < i + s) (hil : i ≤ m.length) :
    (setRange m i s)[j]? = some (some true) := by
  unfold setRange
  have htake : (m.take i).length = i := by simp; omega
  rw [List.getElem?_append_left (by simp [List.length_append]; omega),
    List.getElem?_append_right (by rw [htake]; omega), htake,
    List.getElem?_replicate, if_pos (by omega)]

theorem setRange_getElem?_ge (m : UsageMap) (i s j : Nat) (hj : i + s ≤ j)
    (hjl : j < m.length) :
    (setRange m i s)[j]? = m[j]? := by
  unfold setRange
  have htake : (m.take i).length = i := by simp; omega
  rw [List.getElem?_append_right (by simp [List.length_append]; omega),
    List.getElem?_drop]
  congr 1
  simp [List.length_append, htake]
  omega

/-! ## Helper lemmas: monotone evolution -/

theorem entryStep_refl (a : Option Bool) : entryStep a a := by
  rcases a with _ | b
  · trivial
  · rcases b <;> simp [entryStep]

theorem entryStep_to_true (a : Option Bool) : entryStep a (some true) := by
  rcases a with _ | b
  · trivial
  · rcases b <;> simp [entryStep]

theorem mapEvolves_refl (m : UsageMap) : mapEvolves m m := by
  refine ⟨le_refl _, ?_⟩
  intro p hp a ha
  exact ⟨a, ha, entryStep_refl a⟩

theorem mapEvolves_append (m ext : UsageMap) : mapEvolves m (m ++ ext) := by
  refine ⟨by simp, ?_⟩
  intro p hp a ha
  refine ⟨a, ?_, entryStep_refl a⟩
  rw [List.getElem?_append_left hp]
  exact ha

theorem mapEvolves_setRange (m : UsageMap) (i s : Nat) :
    mapEvolves m (setRange m i s) := by
  refine ⟨le_length_setRange m i s, ?_⟩
  intro p hp a ha
  rcases Nat.lt_or_ge p i with hpi | hpi
  · refine ⟨a, ?_, entryStep_refl a⟩
    rw [setRange_getElem?_lt m i s p hpi hp]
    exact ha
  · rcases Nat.lt_or_ge p (i + s) with hps | hps
    · refine ⟨some true, ?_, entryStep_to_true a⟩
      exact setRange_getElem?_true m i s p hpi hps (by omega)
    · refine ⟨a, ?_, entryStep_refl a⟩
      rw [setRange_getElem?_ge m i s p hps hp]
      exact ha

/-! ## Helper lemmas: the Phase-A loop -/

theorem scanLoop_ok_length (bus : Nat → Except ExchangeError EltakoDiscoveryReply) :
    ∀ fuel usage_map m2, scanLoop bus fuel usage_map = .ok m2 → 255 ≤ m2.length := by
  intro fuel
  induction fuel with
  | zero =>
    intro usage_map m2 h
    unfold scanLoop at h
    split_ifs at h with hlt
    cases h
    omega
  | succ n ih =>
    intro usage_map m2 h
    unfold scanLoop at h
    split_ifs at h with hlt
    · rcases hs : scanStep bus usage_map with e | next
      · rw [hs] at h
        cases h
      · rw [hs] at h
        exact ih next m2 h
    · cases h
      omega

theorem scanLoop_done (bus : Nat → Except ExchangeError EltakoDiscoveryReply)
    (fuel : Nat) (usage_map : UsageMap) (h : 255 ≤ usage_map.length) :
    scanLoop bus fuel usage_map = .ok usage_map := by
  cases fuel <;> · unfold scanLoop; rw [if_neg (by omega)]

/-! ## Claims -/

/-- C4: for every response payload, if it parses as the expected type,
`exchange` returns that parsed instance; if it fails to parse as the
expected type (a `ParseError`) but parses as a Timeout-Indicator,
`exchange` raises `TimeoutError`; if it parses as neither, `exchange`
raises the original `ParseError` from the expected-type parse attempt. -/
theorem exchange_disambiguation {α : Type} (responsetype : List Nat → Except Err α)
    (payload : List Nat) :
    (∀ v, responsetype payload = .ok v → exchange responsetype payload = .ok v) ∧
    (∀ msg t, responsetype payload = .error (.parseError msg) →
      EltakoTimeout.parse payload = .ok t →
      exchange responsetype payload = .error .timeoutError) ∧
    (∀ msg e2, responsetype payload = .error (.parseError msg) →
      EltakoTimeout.parse payload = .error e2 →
      exchange responsetype payload = .error (.err (.parseError msg))) := by
  refine ⟨?_, ?_, ?_⟩
  · intro v hv
    unfold exchange
    rw [hv]
  · intro msg t hr ht
    unfold exchange
    rw [hr]
    dsimp only
    rw [ht]
  · intro msg e2 hr ht
    unfold exchange
    rw [hr]
    dsimp only
    rcases e2 with msg2 | _
    · rw [ht]
    · exact absurd ht (et_parse_no_index payload)

/-- Witness for C4: the three branches at concrete payloads — a valid
discovery reply, a valid timeout frame, and an unparseable payload. -/
theorem exchange_disambiguation_witness :
    exchange EltakoDiscoveryReply.parse
        [0xa5, 0x5a, 139, 0xf0, 1, 1, 0x7f, 0x08, 0, 0, 0, 0, 0, 4] = .ok ⟨1, 1, [0, 0, 0, 0]⟩ ∧
    exchange EltakoDiscoveryReply.parse
        [0xa5, 0x5a, 139, 0xf8, 0, 0, 0, 0, 0, 0, 0, 0, 0, 131] = .error .timeoutError ∧
    exchange EltakoDiscoveryReply.parse [] = .error (.err (.parseError "No preamble found")) :=
  ⟨(exchange_disambiguation EltakoDiscoveryReply.parse
      [0xa5, 0x5a, 139, 0xf0, 1, 1, 0x7f, 0x08, 0, 0, 0, 0, 0, 4]).1 ⟨1, 1, [0, 0, 0, 0]⟩ rfl,
   (exchange_disambiguation EltakoDiscoveryReply.parse
      [0xa5, 0x5a, 139, 0xf8, 0, 0, 0, 0, 0, 0, 0, 0, 0, 131]).2.1
      "This is not an EltakoDiscoveryReply" .mk rfl rfl,
   (exchange_disambiguation EltakoDiscoveryReply.parse []).2.2
      "No preamble found" (.parseError "No preamble found") rfl rfl⟩

/-- C5: serializing any 11-byte body yields a 14-byte wire form whose
parse succeeds with exactly the same body. -/
theorem envelope_roundtrip (body : List Nat) (hlen : body.length = 11) :
    (ESP2Message.serialize ⟨body⟩).length = 14 ∧
    ESP2Message.parse (ESP2Message.serialize ⟨body⟩) = .ok ⟨body⟩ := by
  have hser : ESP2Message.serialize ⟨body⟩
      = 0xa5 :: 0x5a :: (body ++ [body.sum % 256]) := by
    simp [ESP2Message.serialize]
  constructor
  · rw [hser]
    simp [hlen]
  · rw [hser, esp2_parse_eq]
    have hgetD : (0xa5 :: 0x5a :: (body ++ [body.sum % 256])).getD 13 0
        = body.sum % 256 := by
      rw [show (13 : Nat) = 12 + 1 from rfl, List.getD_cons_succ,
        show (12 : Nat) = 11 + 1 from rfl, List.getD_cons_succ,
        List.getD_eq_getElem?_getD, List.getElem?_append_right (by omega),
        hlen]
      rfl
    have htake11 : ((0xa5 :: 0x5a :: (body ++ [body.sum % 256])).drop 2).take 11
        = body := by
      rw [List.drop_succ_cons, List.drop_succ_cons, List.drop_zero,
        List.take_left' hlen]
    simp only [htake11, hgetD]
    rw [if_neg (by simp), if_neg (by simp [hlen]), if_neg (by simp)]

/-- Witness for C5: the round trip at a concrete 11-byte body. -/
theorem envelope_roundtrip_witness :
    (ESP2Message.serialize ⟨[1, 2, 3, 4, 5, 6, 7, 8, 9, 10, 11]⟩).length = 14 ∧
    ESP2Message.parse (ESP2Message.serialize ⟨[1, 2, 3, 4, 5, 6, 7, 8, 9, 10, 11]⟩)
      = .ok ⟨[1, 2, 3, 4, 5, 6, 7, 8, 9, 10, 11]⟩ :=
  envelope_roundtrip [1, 2, 3, 4, 5, 6, 7, 8, 9, 10, 11] (by decide)

/-- C6: the envelope parse fails with a `ParseError` exactly when the
input's length is not 14, or its first two bytes are not `A5 5A`, or its
last byte differs from the sum of the 11 body bytes mod 256.  (The
embedded `ESP2Message.parse` is a pure function: it mutates no state.) -/
theorem envelope_parse_error_iff (data : List Nat) :
    (∃ msg, ESP2Message.parse data = .error (.parseError msg)) ↔
      (data.length ≠ 14 ∨ data.take 2 ≠ [0xa5, 0x5a] ∨
        data[13]? ≠ some (((data.drop 2).take 11).sum % 256)) := by
  rw [esp2_parse_eq]
  by_cases h1 : data.take 2 = [0xa5, 0x5a]
  · by_cases h2 : data.length = 14
    · have h13 : data[13]? = some (data.getD 13 0) := by
        rw [List.getD_eq_getElem?_getD,
          List.getElem?_eq_getElem (show 13 < data.length by omega)]
        rfl
      by_cases h3 : ((data.drop 2).take 11).sum % 256 = data.getD 13 0
      · rw [if_neg (by simp [h1]), if_neg (by omega), if_neg (by omega)]
        constructor
        · rintro ⟨msg, hmsg⟩
          cases hmsg
        · rintro (hc | hc | hc)
          · exact absurd h2 hc
          · exact absurd h1 hc
          · refine absurd ?_ hc
            rw [h13, h3]
      · rw [if_neg (by simp [h1]), if_neg (by omega), if_pos h3]
        constructor
        · intro _
          refine Or.inr (Or.inr ?_)
          rw [h13]
          intro hc
          injection hc with hc2
          exact h3 hc2.symm
        · intro _
          exact ⟨"Checksum mismatch", rfl⟩
    · simp [h1, h2]
  · simp [h1]

/-- C10: every layered parse is total on arbitrary byte strings — it
never raises an out-of-range indexing error (the only non-`ParseError`
failure in the embedding), and a successful envelope parse always
carries an 11-byte body, keeping the fixed-offset reads of the layered
parses in range. -/
theorem parse_totality (data : List Nat) :
    ESP2Message.parse data ≠ .error .indexError ∧
    EltakoMessage.parse data ≠ .error .indexError ∧
    EltakoDiscoveryReply.parse data ≠ .error .indexError ∧
    EltakoTimeout.parse data ≠ .error .indexError ∧
    ∀ m, ESP2Message.parse data = .ok m → m.body.length = 11 :=
  ⟨esp2_parse_no_index data, eltako_parse_no_index data, edr_parse_no_index data,
    et_parse_no_index data, fun _ h => (esp2_parse_ok_shape h).2.2⟩

/-- Witness for C10: totality at an empty input, and the 11-byte body of
a successfully parsed concrete frame. -/
theorem parse_totality_witness :
    EltakoDiscoveryReply.parse [] ≠ .error .indexError ∧
    ([171, 240, 0, 0, 0, 0, 0, 0, 0, 0, 0] : List Nat).length = 11 :=
  ⟨(parse_totality []).2.2.1,
   (parse_totality [0xa5, 0x5a, 171, 240, 0, 0, 0, 0, 0, 0, 0, 0, 0, 155]).2.2.2.2
     ⟨[171, 240, 0, 0, 0, 0, 0, 0, 0, 0, 0]⟩ rfl⟩

/-- C8: a frame accepted by the generic `EltakoMessage.parse` whose org,
direction flag or address does not match a specialized type's fixed
constants is rejected by that specialized parse with a `ParseError`; and
no frame is accepted by both specialized parses. -/
theorem specialized_rejection (data : List Nat) (em : EltakoMessage)
    (hm : EltakoMessage.parse data = .ok em) :
    ((em.org ≠ 0xf0 ∨ em.is_request ≠ false ∨ em.address ≠ 0) →
      EltakoDiscoveryReply.parse data =
        .error (.parseError "This is not an EltakoDiscoveryReply")) ∧
    ((em.org ≠ 0xf8 ∨ em.is_request ≠ false ∨ em.address ≠ 0) →
      EltakoTimeout.parse data =
        .error (.parseError "Does not look like an EltakoTimeout")) ∧
    ¬((∃ r, EltakoDiscoveryReply.parse data = .ok r) ∧
      (∃ t, EltakoTimeout.parse data = .ok t)) := by
  refine ⟨?_, ?_, ?_⟩
  · intro hmis
    rw [edr_parse_of_eltako_ok hm, if_pos hmis]
  · intro hmis
    rw [et_parse_of_eltako_ok hm]
    have hc : em.org ≠ 0xf8 ∨ em.is_request ≠ false ∨
        em.payload ≠ [0, 0, 0, 0, 0, 0, 0, 0] ∨ em.address ≠ 0 := by
      tauto
    rw [if_pos hc]
  · rintro ⟨⟨r, hr⟩, t, ht⟩
    rw [edr_parse_of_eltako_ok hm] at hr
    rw [et_parse_of_eltako_ok hm] at ht
    split_ifs at hr with hc1 hc2
    split_ifs at ht with hc3
    push_neg at hc1 hc3
    have h1 := hc1.1
    have h2 := hc3.1
    omega

/-- Witness for C8: a generic request frame (org 5, address 7) that both
specialized parses reject. -/
theorem specialized_rejection_witness :
    EltakoDiscoveryReply.parse [0xa5, 0x5a, 171, 5, 0, 0, 0, 0, 0, 0, 0, 0, 7, 183] =
      .error (.parseError "This is not an EltakoDiscoveryReply") ∧
    EltakoTimeout.parse [0xa5, 0x5a, 171, 5, 0, 0, 0, 0, 0, 0, 0, 0, 7, 183] =
      .error (.parseError "Does not look like an EltakoTimeout") ∧
    ¬((∃ r, EltakoDiscoveryReply.parse
          [0xa5, 0x5a, 171, 5, 0, 0, 0, 0, 0, 0, 0, 0, 7, 183] = .ok r) ∧
      (∃ t, EltakoTimeout.parse
          [0xa5, 0x5a, 171, 5, 0, 0, 0, 0, 0, 0, 0, 0, 7, 183] = .ok t)) :=
  ⟨(specialized_rejection [0xa5, 0x5a, 171, 5, 0, 0, 0, 0, 0, 0, 0, 0, 7, 183]
      ⟨5, 7, [0, 0, 0, 0, 0, 0, 0, 0], true⟩ rfl).1 (by simp),
   (specialized_rejection [0xa5, 0x5a, 171, 5, 0, 0, 0, 0, 0, 0, 0, 0, 7, 183]
      ⟨5, 7, [0, 0, 0, 0, 0, 0, 0, 0], true⟩ rfl).2.1 (by simp),
   (specialized_rejection [0xa5, 0x5a, 171, 5, 0, 0, 0, 0, 0, 0, 0, 0, 7, 183]
      ⟨5, 7, [0, 0, 0, 0, 0, 0, 0, 0], true⟩ rfl).2.2⟩

/-- C2: Phase-B address selection is a first-fit lowest-address search —
`firstFit` returns `some i` exactly when `i` is the lowest address in
`[1, 254 - reported_size)` whose whole range `[i, i+size)` contains no
Occupied entry (Free and Unknown both count as available), and `none`
(the fatal capacity-exhaustion branch) exactly when no such address
exists. -/
theorem firstFit_first_fit (usage_map : UsageMap) (size : Nat) :
    (∀ i, firstFit usage_map size = some i ↔
      1 ≤ i ∧ i < 254 - size ∧ availableRange usage_map i size ∧
      ∀ j, 1 ≤ j → j < i → ¬ availableRange usage_map j size) ∧
    (firstFit usage_map size = none ↔
      ∀ i, 1 ≤ i → i < 254 - size → ¬ availableRange usage_map i size) :=
  ⟨fun i => firstFit_some_iff usage_map size i, firstFit_none_iff usage_map size⟩

set_option maxRecDepth 8000 in
/-- Witness for C2: on a map whose addresses 1–3 are Occupied, a size-1
device is assigned address 4; on a fully-Occupied map the search is
exhausted. -/
theorem firstFit_first_fit_witness :
    firstFit (none :: some true :: some true :: some true :: List.replicate 251 (some false)) 1
      = some 4 ∧
    firstFit (List.replicate 255 (some true)) 1 = none := by
  constructor
  · have hav : availableRange
        (none :: some true :: some true :: some true :: List.replicate 251 (some false)) 4 1 := by
      intro j h1 h2
      have hj : j = 4 := by omega
      subst hj
      decide
    have hmin : ∀ j, 1 ≤ j → j < 4 → ¬ availableRange
        (none :: some true :: some true :: some true :: List.replicate 251 (some false)) j 1 := by
      intro j h1 hj hav2
      have hc := hav2 j (le_refl j) (by omega)
      interval_cases j
      · exact hc (by decide)
      · exact hc (by decide)
      · exact hc (by decide)
    exact ((firstFit_first_fit
      (none :: some true :: some true :: some true :: List.replicate 251 (some false)) 1).1 4).mpr
      ⟨by omega, by omega, hav, hmin⟩
  · refine (firstFit_first_fit (List.replicate 255 (some true)) 1).2.mpr ?_
    intro i h1 h2 hav
    have hc := hav i (le_refl i) (by omega)
    rw [List.getElem?_replicate, if_pos (by omega)] at hc
    exact hc rfl

/-- C1: Phase-A scan step and termination — probing starts at address 1
(the initial map has length 1); a timeout marks the probed address
`n = len(usage_map)` Free and advances by exactly 1; a reply must report
`reported_address == n` (anything else is fatal), marks `[n, n+size)`
Occupied and advances past the whole claimed range; the loop returns the
map exactly when it covers indices 1..254 (length ≥ 255). -/
theorem phaseA_scan (bus : Nat → Except ExchangeError EltakoDiscoveryReply) :
    (∀ usage_map : UsageMap, bus usage_map.length = .error .timeoutError →
      scanStep bus usage_map = .ok (usage_map ++ [some false]) ∧
      (usage_map ++ [some false])[usage_map.length]? = some (some false) ∧
      (usage_map ++ [some false]).length = usage_map.length + 1) ∧
    (∀ usage_map response, bus usage_map.length = .ok response →
      (response.reported_address ≠ usage_map.length →
        scanStep bus usage_map = .error .assertionError) ∧
      (response.reported_address = usage_map.length →
        scanStep bus usage_map
          = .ok (usage_map ++ List.replicate response.reported_size (some true)) ∧
        (usage_map ++ List.replicate response.reported_size (some true)).length
          = usage_map.length + response.reported_size ∧
        ∀ j, usage_map.length ≤ j → j < usage_map.length + response.reported_size →
          (usage_map ++ List.replicate response.reported_size (some true))[j]?
            = some (some true))) ∧
    (∀ fuel usage_map m2, scanLoop bus fuel usage_map = .ok m2 → 255 ≤ m2.length) ∧
    (∀ fuel usage_map, 255 ≤ usage_map.length → scanLoop bus fuel usage_map = .ok usage_map) ∧
    initialUsageMap.length = 1 := by
  refine ⟨?_, ?_, scanLoop_ok_length bus, scanLoop_done bus, rfl⟩
  · intro m hb
    refine ⟨?_, List.getElem?_concat_length m (some false), by simp⟩
    unfold scanStep
    rw [hb]
  · intro m r hb
    constructor
    · intro hne
      unfold scanStep
      rw [hb]
      dsimp only
      rw [if_neg (by omega)]
    · intro heq
      refine ⟨?_, by simp, ?_⟩
      · unfold scanStep
        rw [hb]
        dsimp only
        rw [if_pos (by omega)]
      · intro j hj1 hj2
        rw [List.getElem?_append_right hj1, List.getElem?_replicate,
          if_pos (by omega)]

set_option maxRecDepth 8000 in
/-- Witness for C1: the timeout step, the occupied step, the assertion
failure, and loop termination, at concrete inputs. -/
theorem phaseA_scan_witness :
    scanStep scanBus [none, some false, some false, some false]
      = .ok [none, some false, some false, some false, some false] ∧
    ([none, some false, some false, some false, some false] : UsageMap)[4]?
      = some (some false) ∧
    scanStep scanBus [none] = .ok [none, some true, some true] ∧
    ([none, some true, some true] : UsageMap)[1]? = some (some true) ∧
    scanStep scanBus [none, some false, some false] = .error .assertionError ∧
    scanLoop scanBus 0 (List.replicate 255 (some false))
      = .ok (List.replicate 255 (some false)) ∧
    255 ≤ (List.replicate 255 (some false) : UsageMap).length := by
  refine ⟨?_, ?_, ?_, ?_, ?_, ?_, ?_⟩
  · exact ((phaseA_scan scanBus).1 [none, some false, some false, some false] rfl).1
  · exact ((phaseA_scan scanBus).1 [none, some false, some false, some false] rfl).2.1
  · exact (((phaseA_scan scanBus).2.1 [none] ⟨1, 2, [0, 0, 0, 0]⟩ rfl).2 rfl).1
  · exact (((phaseA_scan scanBus).2.1 [none] ⟨1, 2, [0, 0, 0, 0]⟩ rfl).2 rfl).2.2 1
      (by decide) (by decide)
  · exact ((phaseA_scan scanBus).2.1 [none, some false, some false]
      ⟨9, 1, [0, 0, 0, 0]⟩ rfl).1 (by decide)
  · exact (phaseA_scan scanBus).2.2.2.1 0 (List.replicate 255 (some false)) (by simp)
  · exact (phaseA_scan scanBus).2.2.1 0 (List.replicate 255 (some false))
      (List.replicate 255 (some false))
      ((phaseA_scan scanBus).2.2.2.1 0 (List.replicate 255 (some false)) (by simp))

/-- C3: ambiguous-assignment retry — if the confirmation of a tentative
assignment of `[i, i+reported_size)` reports `reported_address == 0`,
the step returns to the probing point with the same state (so every
address of the tentative range remains Occupied), reports no success,
and the next request issued is the learn-mode probe of address 0. -/
theorem ambiguous_assignment_retry (s s2 : BState) (i : Nat)
    (learnresp response : EltakoDiscoveryReply)
    (hlen : 254 ≤ s.usage_map.length)
    (hprobe : phaseBStep (.probing s) (.ok learnresp) = .ok (.confirming s2 i, none))
    (hzero : response.reported_address = 0) :
    phaseBStep (.confirming s2 i) (.ok response) = .ok (.probing s2, none) ∧
    (∀ j, i ≤ j → j < i + learnresp.reported_size →
      s2.usage_map[j]? = some (some true)) ∧
    (BPhase.probing s2).request = ⟨0xf0, 0, [0, 0, 0, 0, 0, 0, 0, 0], true⟩ := by
  unfold phaseBStep at hprobe
  dsimp only at hprobe
  rcases hf : firstFit s.usage_map learnresp.reported_size with _ | i0
  · rw [hf] at hprobe
    cases hprobe
  · rw [hf] at hprobe
    simp only [Except.ok.injEq, Prod.mk.injEq, BPhase.confirming.injEq] at hprobe
    obtain ⟨⟨hs2, hi0⟩, -⟩ := hprobe
    subst hi0
    obtain ⟨hb1, hb2, -, -⟩ :=
      (firstFit_some_iff s.usage_map learnresp.reported_size i0).mp hf
    refine ⟨?_, ?_, rfl⟩
    · unfold phaseBStep
      dsimp only
      rw [if_pos hzero]
    · intro j hj1 hj2
      rw [← hs2]
      dsimp only
      refine setRange_getElem?_true s.usage_map i0 learnresp.reported_size j hj1 hj2 ?_
      omega

set_option maxRecDepth 8000 in
/-- Witness for C3: a size-1 learn-mode device on a freshly scanned map;
the ambiguous confirmation (address 0) leaves address 1 Occupied, the
step reports no success, and the next request probes address 0. -/
theorem ambiguous_assignment_retry_witness :
    phaseBStep
        (.confirming ⟨setRange (none :: List.replicate 254 (some false)) 1 1, false⟩ 1)
        (.ok ⟨0, 1, [0, 0, 0, 0]⟩) =
      .ok (.probing ⟨setRange (none :: List.replicate 254 (some false)) 1 1, false⟩, none) ∧
    (setRange (none :: List.replicate 254 (some false)) 1 1)[1]? = some (some true) ∧
    (BPhase.probing ⟨setRange (none :: List.replicate 254 (some false)) 1 1, false⟩).request
      = ⟨0xf0, 0, [0, 0, 0, 0, 0, 0, 0, 0], true⟩ := by
  have h := ambiguous_assignment_retry ⟨none :: List.replicate 254 (some false), false⟩
      ⟨setRange (none :: List.replicate 254 (some false)) 1 1, false⟩ 1
      ⟨0, 1, [0, 0, 0, 0]⟩ ⟨0, 1, [0, 0, 0, 0]⟩ (by simp) rfl rfl
  exact ⟨h.1, h.2.1 1 (le_refl 1) (by decide), h.2.2⟩

/-- C9: occupancy-map monotonicity — every successful step of the
enumerator (a Phase-A scan step, and every Phase-B transition) takes the
usage map to one that is no shorter and whose surviving entries only
grow in certainty: Occupied never reverts, Free never becomes Unknown. -/
theorem usage_map_monotone :
    (∀ bus usage_map m2, scanStep bus usage_map = .ok m2 → mapEvolves usage_map m2) ∧
    (∀ ph outcome ph2 succ, phaseBStep ph outcome = .ok (ph2, succ) →
      mapEvolves ph.usage_map ph2.usage_map) := by
  constructor
  · intro bus m m2 h
    unfold scanStep at h
    rcases hb : bus m.length with e | r
    · rcases e with _ | e2
      · rw [hb] at h
        cases h
        exact mapEvolves_append m [some false]
      · rw [hb] at h
        cases h
    · rw [hb] at h
      dsimp only at h
      split_ifs at h
      cases h
      exact mapEvolves_append m (List.replicate r.reported_size (some true))
  · intro ph outcome ph2 succ h
    cases ph with
    | probing s =>
      rcases outcome with e | r
      · rcases e with _ | e2
        · unfold phaseBStep at h
          cases h
          exact mapEvolves_refl s.usage_map
        · unfold phaseBStep at h
          cases h
      · unfold phaseBStep at h
        dsimp only at h
        rcases hf : firstFit s.usage_map r.reported_size with _ | i
        · rw [hf] at h
          cases h
        · rw [hf] at h
          cases h
          exact mapEvolves_setRange s.usage_map i r.reported_size
    | confirming s i =>
      rcases outcome with e | r
      · unfold phaseBStep at h
        cases h
      · unfold phaseBStep at h
        dsimp only at h
        split_ifs at h <;> · cases h; exact mapEvolves_refl s.usage_map

/-- Witness for C9: a timeout scan step and a timeout Phase-B step at
concrete maps. -/
theorem usage_map_monotone_witness :
    mapEvolves [none] [none, some false] ∧ mapEvolves [none] [none] :=
  ⟨usage_map_monotone.1 (fun _ => .error .timeoutError) [none] [none, some false] rfl,
   usage_map_monotone.2 (.probing ⟨[none], false⟩) (.error .timeoutError)
     (.probing ⟨[none], true⟩) none rfl⟩

/-! ## Helper lemmas: single-bit flips -/

theorem flipBitByte_ne (b k : Nat) : flipBitByte b k ≠ b := by
  unfold flipBitByte
  have hd : 0 < 2 ^ k := Nat.pow_pos (by omega)
  split_ifs with h
  · have hble : 2 ^ k ≤ b := by
      by_contra hlt
      push_neg at hlt
      rw [Nat.div_eq_of_lt hlt] at h
      simp at h
    omega
  · omega

theorem flipBitByte_delta (b k : Nat) :
    flipBitByte b k = b + 2 ^ k ∨ (2 ^ k ≤ b ∧ flipBitByte b k = b - 2 ^ k) := by
  unfold flipBitByte
  split_ifs with h
  · right
    refine ⟨?_, rfl⟩
    by_contra hlt
    push_neg at hlt
    rw [Nat.div_eq_of_lt hlt] at h
    simp at h
  · left
    rfl

theorem two_pow_lt_256 (k : Nat) (hk : k < 8) : 2 ^ k < 256 := by
  calc 2 ^ k ≤ 2 ^ 7 := Nat.pow_le_pow_right (by omega) (by omega)
  _ < 256 := by omega

theorem sum_set_flip_mod (l : List Nat) (n k : Nat) (hn : n < l.length) (hk : k < 8) :
    (l.set n (flipBitByte (l.getD n 0) k)).sum % 256 ≠ l.sum % 256 := by
  have hd0 : 0 < 2 ^ k := Nat.pow_pos (by omega)
  have hd256 : 2 ^ k < 256 := two_pow_lt_256 k hk
  have hgetD : l.getD n 0 = l[n] := by
    rw [List.getD_eq_getElem?_getD, List.getElem?_eq_getElem hn]
    rfl
  have hdrop : (List.drop n l).sum = l[n] + (List.drop (n + 1) l).sum := by
    rw [← List.getElem_cons_drop l n hn, List.sum_cons]
  have hsum := List.sum_take_add_sum_drop l n
  rw [hdrop] at hsum
  rw [List.sum_set, if_pos hn, hgetD]
  rcases flipBitByte_delta l[n] k with hd1 | ⟨hle, hd1⟩ <;> rw [hd1] <;> omega

theorem flipBitWire_ne (w : List Nat) (j k : Nat) (hj : j < w.length) :
    flipBitWire w j k ≠ w := by
  intro heq
  have h1 : (flipBitWire w j k)[j]? = w[j]? := by rw [heq]
  unfold flipBitWire at h1
  rw [List.getElem?_set, if_pos rfl, if_pos hj, List.getElem?_eq_getElem hj] at h1
  injection h1 with h2
  refine flipBitByte_ne (w.getD j 0) k ?_
  rw [h2, List.getD_eq_getElem?_getD, List.getElem?_eq_getElem hj]
  rfl

theorem tail_flip_parse_fail (body : List Nat) (hlen : body.length = 11)
    (n k : Nat) (hn : n < 12) (hk : k < 8) :
    ∃ msg, ESP2Message.parse
      (0xa5 :: 0x5a :: ((body ++ [body.sum % 256]).set n
        (flipBitByte ((body ++ [body.sum % 256]).getD n 0) k))) =
      .error (.parseError msg) := by
  rcases Nat.lt_or_ge n 11 with hn11 | hn11
  · -- the flip lands in the body: the checksum byte no longer matches
    have hgd : (body ++ [body.sum % 256]).getD n 0 = body.getD n 0 :=
      List.getD_append body [body.sum % 256] 0 n (by omega)
    have hset : (body ++ [body.sum % 256]).set n (flipBitByte (body.getD n 0) k)
        = body.set n (flipBitByte (body.getD n 0) k) ++ [body.sum % 256] := by
      rw [List.set_append, if_pos (by omega)]
    rw [hgd, hset, esp2_parse_eq]
    rw [if_neg (by simp), if_neg (by simp [List.length_set, hlen])]
    rw [if_pos ?hchk]
    · exact ⟨"Checksum mismatch", rfl⟩
    case hchk =>
      have hslice : ((0xa5 :: 0x5a :: (body.set n (flipBitByte (body.getD n 0) k)
          ++ [body.sum % 256])).drop 2).take 11
          = body.set n (flipBitByte (body.getD n 0) k) := by
        rw [List.drop_succ_cons, List.drop_succ_cons, List.drop_zero,
          List.take_left' (by rw [List.length_set]; omega)]
      have hgd13 : (0xa5 :: 0x5a :: (body.set n (flipBitByte (body.getD n 0) k)
          ++ [body.sum % 256])).getD 13 0 = body.sum % 256 := by
        rw [show (13 : Nat) = 12 + 1 from rfl, List.getD_cons_succ,
          show (12 : Nat) = 11 + 1 from rfl, List.getD_cons_succ,
          List.getD_append_right _ _ _ _ (by rw [List.length_set]; omega),
          show 11 - (body.set n (flipBitByte (body.getD n 0) k)).length = 0 by
            rw [List.length_set]; omega]
        rfl
      rw [hslice, hgd13]
      exact sum_set_flip_mod body n k (by omega) hk
  · -- the flip lands in the checksum byte itself
    have hn' : n = 11 := by omega
    subst hn'
    have hgd : (body ++ [body.sum % 256]).getD 11 0 = body.sum % 256 := by
      rw [List.getD_append_right _ _ _ _ (by omega), show 11 - body.length = 0 by omega]
      rfl
    have hset : (body ++ [body.sum % 256]).set 11 (flipBitByte (body.sum % 256) k)
        = body ++ [flipBitByte (body.sum % 256) k] := by
      rw [List.set_append, if_neg (by omega), show 11 - body.length = 0 by omega]
      rfl
    rw [hgd, hset, esp2_parse_eq]
    rw [if_neg (by simp), if_neg (by simp [hlen])]
    rw [if_pos ?hchk2]
    · exact ⟨"Checksum mismatch", rfl⟩
    case hchk2 =>
      have hslice : ((0xa5 :: 0x5a :: (body ++ [flipBitByte (body.sum % 256) k])).drop 2).take 11
          = body := by
        rw [List.drop_succ_cons, List.drop_succ_cons, List.drop_zero, List.take_left' hlen]
      have hgd13 : (0xa5 :: 0x5a :: (body ++ [flipBitByte (body.sum % 256) k])).getD 13 0
          = flipBitByte (body.sum % 256) k := by
        rw [show (13 : Nat) = 12 + 1 from rfl, List.getD_cons_succ,
          show (12 : Nat) = 11 + 1 from rfl, List.getD_cons_succ,
          List.getD_append_right _ _ _ _ (by omega), show 11 - body.length = 0 by omega]
        rfl
      rw [hslice, hgd13]
      intro hc
      exact flipBitByte_ne (body.sum % 256) k hc.symm

/-- C7: checksum sensitivity — flipping any single bit of the 14-byte
serialized wire form of an 11-byte body yields a different frame whose
parse fails with a `ParseError` (in fact no single-bit flip can preserve
both the preamble and the checksum relation). -/
theorem checksum_sensitivity (body : List Nat) (hlen : body.length = 11)
    (_hbytes : ∀ b ∈ body, b < 256) (j k : Nat) (hj : j < 14) (hk : k < 8) :
    flipBitWire (ESP2Message.serialize ⟨body⟩) j k ≠ ESP2Message.serialize ⟨body⟩ ∧
    ∃ msg, ESP2Message.parse (flipBitWire (ESP2Message.serialize ⟨body⟩) j k) =
      .error (.parseError msg) := by
  have hser : ESP2Message.serialize ⟨body⟩
      = 0xa5 :: 0x5a :: (body ++ [body.sum % 256]) := by
    simp [ESP2Message.serialize]
  have hwlen : (ESP2Message.serialize ⟨body⟩).length = 14 := by
    rw [hser]
    simp [hlen]
  refine ⟨flipBitWire_ne _ j k (by omega), ?_⟩
  rw [hser]
  rcases j with _ | j1
  · unfold flipBitWire
    rw [show ((0xa5 : Nat) :: 0x5a :: (body ++ [body.sum % 256])).getD 0 0 = 0xa5 from rfl,
      List.set_cons_zero, esp2_parse_eq]
    rw [if_pos ?hpre0]
    · exact ⟨"No preamble found", rfl⟩
    case hpre0 =>
      intro hc
      rw [List.take_succ_cons, List.take_succ_cons, List.take_zero] at hc
      injection hc with hc1 hc2
      exact flipBitByte_ne 0xa5 k hc1
  · rcases j1 with _ | n
    · unfold flipBitWire
      rw [show ((0xa5 : Nat) :: 0x5a :: (body ++ [body.sum % 256])).getD 1 0 = 0x5a from rfl,
        List.set_cons_succ, List.set_cons_zero, esp2_parse_eq]
      rw [if_pos ?hpre1]
      · exact ⟨"No preamble found", rfl⟩
      case hpre1 =>
        intro hc
        rw [List.take_succ_cons, List.take_succ_cons, List.take_zero] at hc
        injection hc with hc1 hc2
        injection hc2 with hc3 hc4
        exact flipBitByte_ne 0x5a k hc3
    · unfold flipBitWire
      rw [show ((0xa5 : Nat) :: 0x5a :: (body ++ [body.sum % 256])).getD (n + 1 + 1) 0
          = (body ++ [body.sum % 256]).getD n 0 by
            rw [List.getD_cons_succ, List.getD_cons_succ],
        List.set_cons_succ, List.set_cons_succ]
      exact tail_flip_parse_fail body hlen n k (by omega) hk

/-- Witness for C7: flipping bit 3 of byte 5 of a concrete frame. -/
theorem checksum_sensitivity_witness :
    flipBitWire (ESP2Message.serialize ⟨[1, 2, 3, 4, 5, 6, 7, 8, 9, 10, 11]⟩) 5 3
      ≠ ESP2Message.serialize ⟨[1, 2, 3, 4, 5, 6, 7, 8, 9, 10, 11]⟩ ∧
    ∃ msg, ESP2Message.parse
      (flipBitWire (ESP2Message.serialize ⟨[1, 2, 3, 4, 5, 6, 7, 8, 9, 10, 11]⟩) 5 3)
      = .error (.parseError msg) :=
  checksum_sensitivity [1, 2, 3, 4, 5, 6, 7, 8, 9, 10, 11] (by decide) (by decide)
    5 3 (by decide) (by decide)

/-- Witness for C6: a short input fails with a `ParseError`, and a valid
frame does not. -/
theorem envelope_parse_error_iff_witness :
    (∃ msg, ESP2Message.parse [1, 2, 3] = .error (.parseError msg)) ∧
    ¬∃ msg, ESP2Message.parse [0xa5, 0x5a, 171, 240, 0, 0, 0, 0, 0, 0, 0, 0, 0, 155]
      = .error (.parseError msg) :=
  ⟨(envelope_parse_error_iff [1, 2, 3]).mpr (Or.inl (by decide)),
   fun hc => by
    have h2 := (envelope_parse_error_iff
      [0xa5, 0x5a, 171, 240, 0, 0, 0, 0, 0, 0, 0, 0, 0, 155]).mp hc
    rcases h2 with h | h | h
    · exact h (by decide)
    · exact h (by decide)
    · exact h (by decide)⟩
